import Mathlib

/-!
Verification development for the raster-processing template module
`open_source_template_v01.py`.

The Python module is shallowly embedded below.  Conventions:

* A filesystem is a total function from path strings to optional file
  contents (`RasterFS` for raster files, `CsvFS` for the csv catalog,
  `TextFS` for text documents read line by line).  `os.path.exists p`
  becomes `(fs p).isSome`, `os.remove` and file creation become pointwise
  updates.
* Python's global name resolution is modelled explicitly: the list
  `moduleGlobalNames` holds every top-level name bound in the module
  (imports, configuration globals, function definitions, as they appear
  in the source).  A call to a global name succeeds only when the name is
  bound; calling an unbound name raises `NameError`, which we embed as an
  `Except.error` result.  This matters because every logging call site in
  the module spells the logger `writeMessage`, while the module defines
  `write_message`; consecutive logging calls are collapsed into a single
  `writeMessageCall` step since the first such call already determines
  the outcome.
* Machine-level raster contents are abstracted: a band's pixel block is a
  `Nat` token, a never-written band slot is `none` (a fresh rasterio
  band that was allocated but not written).  The external geospatial
  library's resampling kernel and `calculate_default_transform` are taken
  as parameters (`reproj`, `calcTransform`) of `project_raster`, since the source
  delegates them wholesale to rasterio.
* String helpers (`pyIn`, `pyReplace`, `pyLower`, `ntBasename`, ...)
  embed the exact Python/ntpath semantics the source relies on,
  including `str.replace` with an empty pattern and `ntpath.basename`
  splitting on both separators.  Drive-letter handling of `ntpath` is
  omitted: no three-character band token or claim input involves a
  drive prefix.
-/

/-! ## Python string primitives -/

/-- Boolean list prefix test on characters (used by the substring test). -/
def isPrefixL : List Char → List Char → Bool
  | [], _ => true
  | _ :: _, [] => false
  | a :: n, b :: h => a == b && isPrefixL n h

/-- Python's substring operator `needle in hay` on character lists. -/
def hasSubL (n : List Char) : List Char → Bool
  | [] => n.isEmpty
  | c :: t => isPrefixL n (c :: t) || hasSubL n t

/-- Python's `needle in hay` on strings. -/
def pyIn (needle hay : String) : Bool :=
  hasSubL needle.data hay.data

/-- Python's `s.replace(old, new)` on character lists: leftmost,
non-overlapping replacement of every occurrence; an empty `old` inserts
`new` between every character and at both ends, as CPython does. -/
def pyReplaceL (old new : List Char) : List Char → List Char
  | [] => if old = [] then new else []
  | c :: rest =>
    if h : old = [] then
      new ++ c :: pyReplaceL old new rest
    else if old.isPrefixOf (c :: rest) then
      new ++ pyReplaceL old new ((c :: rest).drop old.length)
    else
      c :: pyReplaceL old new rest
termination_by s => s.length
decreasing_by
  all_goals simp only [List.length_drop, List.length_cons]
  all_goals try omega
  have hpos : 0 < old.length := List.length_pos.mpr h
  omega

/-- Python's `s.replace(old, new)` on strings. -/
def pyReplace (s old new : String) : String :=
  ⟨pyReplaceL old.data new.data s.data⟩

/-- Python's `s.lower()` (ASCII case folding suffices for every string the
module compares). -/
def pyLower (s : String) : String :=
  ⟨s.data.map Char.toLower⟩

/-- Python's `s.split(sep)` for a non-empty separator; `String.splitOn`
has the same semantics. -/
def pySplit (s sep : String) : List String :=
  s.splitOn sep

/-- Python's slice `s[:n]`. -/
def pyTake (n : Nat) (s : String) : String :=
  ⟨s.data.take n⟩

/-- Python's slice `s[n:]`. -/
def pyDrop (n : Nat) (s : String) : String :=
  ⟨s.data.drop n⟩

/-- Python's `range(a, b)` as a list of naturals. -/
def pyRange (a b : Nat) : List Nat :=
  (List.range (b - a)).map (· + a)

/-! ## ntpath primitives -/

/-- Windows path separator test (`ntpath` splits on both `/` and `\`). -/
def isNtSep (c : Char) : Bool :=
  c == '/' || c == '\\'

/-- `ntpath.basename p`: the part of the path after the last separator. -/
def ntBasename (p : String) : String :=
  ⟨(p.data.reverse.takeWhile (fun c => !isNtSep c)).reverse⟩

/-- `ntpath.dirname p`: the part before the basename with trailing
separators stripped, kept whole when it consists of separators only. -/
def ntDirname (p : String) : String :=
  let l := p.data
  let tail := l.reverse.takeWhile (fun c => !isNtSep c)
  let head := l.take (l.length - tail.length)
  let stripped := (head.reverse.dropWhile isNtSep).reverse
  if stripped = [] then ⟨head⟩ else ⟨stripped⟩

/-- Helper for `os.path.splitext`: the suffix of the name starting at its
last dot, when a dot exists. -/
def splitextAux : List Char → Option (List Char)
  | [] => none
  | c :: t =>
    match splitextAux t with
    | some e => some e
    | none => if c == '.' then some (c :: t) else none

/-- The extension component of `os.path.splitext name` (with its dot);
a name whose characters before the last dot are all dots has no
extension, matching CPython. -/
def ntSplitextExt (name : String) : String :=
  match splitextAux name.data with
  | none => ""
  | some e =>
    let pre := name.data.take (name.data.length - e.length)
    if pre.all (fun c => c == '.') then "" else ⟨e⟩

/-! ## Module global namespace and name resolution -/

/-- Every top-level name bound in `open_source_template_v01.py`: the
imports, the configuration globals and the function definitions, in
source order.  Note that the printing helper is bound as
`write_message`. -/
def moduleGlobalNames : List String :=
  ["os", "sys", "time", "datetime", "gdal", "rasterio", "zipfile",
   "ntpath", "csv", "reproject", "Resampling",
   "calculate_default_transform", "Affine",
   "INPUT_DIR", "OUTPUT_LOC", "TEMP_LOC", "COORDINATE_SYSTEM",
   "BAND_RESTACK", "RESAMPLE", "SPATIAL_RES", "RESAMPLING", "FORMAT",
   "OVERWRITE",
   "write_message", "check_extension", "unzip_files", "search_files",
   "remove_unwanted_txt", "read_raster_sentinel2_metadata",
   "get_raster_dtype", "stack_rasters", "restack_bands",
   "get_resampling", "get_epsg_projection_code", "project_raster",
   "delete_raster", "delete_file", "copy_raster",
   "create_output_folder", "s2_get_raster_stack_bands",
   "create_metadata"]

/-- The message CPython produces when an unbound global is called
(quotation marks around the name elided). -/
def nameErrorMsg (n : String) : String :=
  "NameError: name " ++ n ++ " is not defined"

/-- Calling a global name: succeeds exactly when the module binds it. -/
def callGlobal (n : String) : Except String Unit :=
  if moduleGlobalNames.contains n then Except.ok () else Except.error (nameErrorMsg n)

/-- Every logging call site in the module invokes the global name
`writeMessage`.  One such step stands for a maximal run of consecutive
logging calls, since the first call already decides the outcome. -/
def writeMessageCall : Except String Unit :=
  callGlobal "writeMessage"

/-! ## Data model: rasters and filesystems -/

/-- A raster file as the module observes it through rasterio/gdal: the
spatial header fields and the ordered band slots.  A slot holds `some`
pixel-block token once written and `none` while merely allocated. -/
structure Raster where
  width : Nat
  height : Nat
  crs : String
  transform : String
  dtype : String
  bands : List (Option Nat)
deriving DecidableEq

/-- A filesystem of raster files: path to optional contents. -/
abbrev RasterFS : Type :=
  String → Option Raster

/-- A filesystem of csv files: path to optional rows. -/
abbrev CsvFS : Type :=
  String → Option (List (List String))

/-- A filesystem of text documents: path to optional lines. -/
abbrev TextFS : Type :=
  String → Option (List String)

/-- Create or overwrite a raster file. -/
def fsWrite (fs : RasterFS) (p : String) (r : Raster) : RasterFS :=
  fun q => if q = p then some r else fs q

/-- `os.remove` on the raster filesystem. -/
def fsRemove (fs : RasterFS) (p : String) : RasterFS :=
  fun q => if q = p then none else fs q

/-- Create or overwrite a csv file. -/
def cfsWrite (fs : CsvFS) (p : String) (rows : List (List String)) : CsvFS :=
  fun q => if q = p then some rows else fs q

/-- `os.remove` on the csv filesystem. -/
def cfsRemove (fs : CsvFS) (p : String) : CsvFS :=
  fun q => if q = p then none else fs q

/-- Used to totalize raster lookups; every use is guarded by an
existence check in the embedded caller, mirroring the source, where
`rasterio.open` on a missing path would raise instead. -/
def defaultRaster : Raster :=
  { width := 0, height := 0, crs := "", transform := "", dtype := "", bands := [] }

/-- `rasterio.open` under an existence guarantee. -/
def getRasterD (fs : RasterFS) (p : String) : Raster :=
  (fs p).getD defaultRaster

/-- `raster.read(i)`: the contents of 1-based band `i`; rasterio reads a
never-written band as zero-filled, hence the `0` token. -/
def readBand (r : Raster) (i : Nat) : Nat :=
  (r.bands.getD (i - 1) none).getD 0

/-! ## Embedded module operations -/

/-- `get_raster_dtype`: opens the raster with gdal, reads band 1's data
type name and lowercases it; the gdal round trip is modelled by the
stored `dtype` field. -/
def get_raster_dtype (fs : RasterFS) (raster : String) : String :=
  pyLower (getRasterD fs raster).dtype

/-- `remove_unwanted_txt`: strips spaces, newlines and tabs. -/
def remove_unwanted_txt (s : String) : String :=
  pyReplace (pyReplace (pyReplace s " " "") "\n" "") "\t" ""

/-- The sidecar extensions `delete_raster` cleans up alongside a raster. -/
def raster_extensions : List String :=
  ["tfw", "aux.xml", "ovr", "xml"]

/-- `delete_raster`: when the raster exists it logs (a call to the
unbound `writeMessage`), then removes the raster and any sidecar file
derived from its base name; when it does not exist, nothing happens. -/
def delete_raster (fs : RasterFS) (raster_to_delete : String) : RasterFS × Except String Unit :=
  if (fs raster_to_delete).isSome then
    match writeMessageCall with
    | Except.error e => (fs, Except.error e)
    | Except.ok _ =>
      let fs1 := fsRemove fs raster_to_delete
      let base_name := ntBasename raster_to_delete
      let base_extension := ntSplitextExt base_name
      let base_path := ntDirname raster_to_delete ++ "/"
      let fs2 := raster_extensions.foldl (fun acc extension =>
        let filename :=
          if pyIn "tfw" extension then
            pyReplace base_name base_extension ("." ++ extension)
          else
            base_name ++ "." ++ extension
        let file := base_path ++ filename
        if (acc file).isSome then fsRemove acc file else acc) fs1
      (fs2, Except.ok ())
  else (fs, Except.ok ())

/-- `delete_file`: when the file exists it logs (unbound `writeMessage`)
and removes it. -/
def delete_file (fs : CsvFS) (file_to_delete : String) : CsvFS × Except String Unit :=
  if (fs file_to_delete).isSome then
    match writeMessageCall with
    | Except.error e => (fs, Except.error e)
    | Except.ok _ => (cfsRemove fs file_to_delete, Except.ok ())
  else (fs, Except.ok ())

/-- `stack_rasters`: aborts when any listed band file is missing, skips
when the output exists and overwrite is off, otherwise deletes any
pre-existing output, logs, and writes band 1 of each input, in list
order, into the output (an empty list would hit `list_bands[0]`).
The `overwrite` parameter stands for the module global `OVERWRITE`. -/
def stack_rasters (overwrite : Bool) (fs : RasterFS) (list_bands : List String)
    (output_stacked_raster : String) : RasterFS × Except String Unit :=
  if list_bands.any (fun band => (fs band).isNone) then
    match writeMessageCall with
    | Except.error e => (fs, Except.error e)
    | Except.ok _ => (fs, Except.ok ())
  else if (fs output_stacked_raster).isNone || overwrite then
    match delete_raster fs output_stacked_raster with
    | (fs1, Except.error e) => (fs1, Except.error e)
    | (fs1, Except.ok _) =>
      match writeMessageCall with
      | Except.error e => (fs1, Except.error e)
      | Except.ok _ =>
        match list_bands with
        | [] => (fs1, Except.error "IndexError: list index out of range")
        | first :: _ =>
          let band_obj1 := getRasterD fs1 first
          let dtype := get_raster_dtype fs1 first
          (fsWrite fs1 output_stacked_raster
            { width := band_obj1.width, height := band_obj1.height,
              crs := band_obj1.crs, transform := band_obj1.transform,
              dtype := dtype,
              bands := list_bands.map (fun band => some (readBand (getRasterD fs1 band) 1)) },
           Except.ok ())
  else (fs, Except.ok ())

/-- `restack_bands`: guards on input existence and the overwrite/skip
policy, deletes any pre-existing output, rejects an empty stack, logs,
validates every requested 1-based index against the input's band count
(the source returns at the first offender; the collapsed `any` yields
the same result), then writes the selected bands in the given order. -/
def restack_bands (overwrite : Bool) (fs : RasterFS) (input_raster output_restacked_raster : String)
    (new_stack : List Int) : RasterFS × Except String Unit :=
  if (fs input_raster).isSome then
    if (fs output_restacked_raster).isNone || overwrite then
      match delete_raster fs output_restacked_raster with
      | (fs1, Except.error e) => (fs1, Except.error e)
      | (fs1, Except.ok _) =>
        if new_stack.length > 0 then
          let orig_raster := getRasterD fs1 input_raster
          let dtype := get_raster_dtype fs1 input_raster
          let band_count := orig_raster.bands.length
          match writeMessageCall with
          | Except.error e => (fs1, Except.error e)
          | Except.ok _ =>
            if new_stack.any (fun band => band ≤ 0 || band > (band_count : Int)) then
              match writeMessageCall with
              | Except.error e => (fs1, Except.error e)
              | Except.ok _ => (fs1, Except.ok ())
            else
              match writeMessageCall with
              | Except.error e => (fs1, Except.error e)
              | Except.ok _ =>
                (fsWrite fs1 output_restacked_raster
                  { width := orig_raster.width, height := orig_raster.height,
                    crs := orig_raster.crs, transform := orig_raster.transform,
                    dtype := dtype,
                    bands := new_stack.map (fun band => some (readBand orig_raster band.toNat)) },
                 Except.ok ())
        else
          match writeMessageCall with
          | Except.error e => (fs1, Except.error e)
          | Except.ok _ => (fs1, Except.ok ())
    else (fs, Except.ok ())
  else
    match writeMessageCall with
    | Except.error e => (fs, Except.error e)
    | Except.ok _ => (fs, Except.ok ())

/-- `copy_raster`: skips when the output exists and its own `overwrite`
argument is off, otherwise deletes any pre-existing output, logs, opens
the input (raising when it is missing) and copies every band 1..count. -/
def copy_raster (fs : RasterFS) (input_raster output_raster : String)
    (overwrite : Bool) : RasterFS × Except String Unit :=
  if (fs output_raster).isNone || overwrite then
    match delete_raster fs output_raster with
    | (fs1, Except.error e) => (fs1, Except.error e)
    | (fs1, Except.ok _) =>
      match writeMessageCall with
      | Except.error e => (fs1, Except.error e)
      | Except.ok _ =>
        match fs1 input_raster with
        | none => (fs1, Except.error "RasterioIOError: no such file or directory")
        | some input_raster_obj =>
          let dtype := get_raster_dtype fs1 input_raster
          let band_count := input_raster_obj.bands.length
          (fsWrite fs1 output_raster
            { width := input_raster_obj.width, height := input_raster_obj.height,
              crs := input_raster_obj.crs, transform := input_raster_obj.transform,
              dtype := dtype,
              bands := (List.range band_count).map
                (fun j => some (readBand input_raster_obj (j + 1))) },
           Except.ok ())
  else (fs, Except.ok ())

/-- The rasterio `Resampling` members the module selects from. -/
inductive ResamplingMethod where
  | nearest
  | bilinear
  | cubic
deriving DecidableEq

/-- `get_resampling`: exact match on the three known method names; any
other string reaches the warning call to the unbound `writeMessage`
before the nearest-neighbour default would be returned. -/
def get_resampling (resampling_str : String) : Except String ResamplingMethod :=
  if resampling_str = "nearest" then Except.ok ResamplingMethod.nearest
  else if resampling_str = "bilinear" then Except.ok ResamplingMethod.bilinear
  else if resampling_str = "cubic" then Except.ok ResamplingMethod.cubic
  else
    match writeMessageCall with
    | Except.error e => Except.error e
    | Except.ok _ => Except.ok ResamplingMethod.nearest

/-- The 1-based band indices `project_raster`'s loop iterates:
`range(1, band_count)`, i.e. `1 .. band_count - 1`. -/
def project_raster_band_indices (band_count : Nat) : List Nat :=
  pyRange 1 band_count

/-- `project_raster`: guards on input existence and the overwrite/skip
policy, lowercases and resolves the resampling method, logs, deletes any
pre-existing output, computes the destination transform and dimensions
through the external library (`calcTransform`), allocates the output with the
source's band count and reprojects each band the loop visits through the
external resampling kernel (`reproj`); a band slot the loop never visits
stays unwritten. -/
def project_raster (overwrite : Bool) (reproj : Nat → Nat)
    (calcTransform : Raster → String → String × Nat × Nat) (fs : RasterFS)
    (input_raster output_raster resampling_str epsg_code : String) :
    RasterFS × Except String Unit :=
  if (fs input_raster).isSome then
    if (fs output_raster).isNone || overwrite then
      let _raster_name := ntBasename input_raster
      let rs := pyLower resampling_str
      match get_resampling rs with
      | Except.error e => (fs, Except.error e)
      | Except.ok _resampling =>
        match writeMessageCall with
        | Except.error e => (fs, Except.error e)
        | Except.ok _ =>
          match delete_raster fs output_raster with
          | (fs1, Except.error e) => (fs1, Except.error e)
          | (fs1, Except.ok _) =>
            match fs1 input_raster with
            | none => (fs1, Except.error "RasterioIOError: no such file or directory")
            | some source_raster =>
              let tfh := calcTransform source_raster epsg_code
              let band_count := source_raster.bands.length
              let visited := project_raster_band_indices band_count
              (fsWrite fs1 output_raster
                { width := tfh.2.1, height := tfh.2.2,
                  crs := epsg_code, transform := tfh.1,
                  dtype := source_raster.dtype,
                  bands := (List.range band_count).map (fun j =>
                    if (j + 1) ∈ visited then
                      some (reproj (readBand source_raster (j + 1)))
                    else none) },
               Except.ok ())
    else (fs, Except.ok ())
  else
    match writeMessageCall with
    | Except.error e => (fs, Except.error e)
    | Except.ok _ => (fs, Except.ok ())

/-- `get_epsg_projection_code`: exact, case-sensitive match of the
projection name against the static table; the projection definition
string literals are reproduced verbatim from the source (Python's
adjacent-literal concatenation joined).  An unknown name yields the
error-prefixed string, not an exception. -/
def get_epsg_projection_code (projection_name : String) : String :=
  if projection_name = "wgs84" then "EPSG:4326"
  else if projection_name = "hartebeesthoek" then "EPSG:4148"
  else if projection_name = "lo15" then
    "PROJCS[\"Lo15\",GEOGCS[\"Hartebeesthoek94\",DATUM[\"D_Hartebeesthoek_1994\",SPHEROID[\"WGS_1984\",6378137,298.257223563]],PRIMEM[\"Greenwich\",0],UNIT[\"Degree\",0.017453292519943295]],PROJECTION[\"Transverse_Mercator\"],PARAMETER[\"latitude_of_origin\",0],PARAMETER[\"central_meridian\",15],PARAMETER[\"scale_factor\",1],PARAMETER[\"false_easting\",0],PARAMETER[\"false_northing\",0],UNIT[\"Meter\",1]]"
  else if projection_name = "lo17" then
    "PROJCS[\"Lo17\",GEOGCS[\"Hartebeesthoek94\",DATUM[\"D_Hartebeesthoek_1994\",SPHEROID[\"WGS_1984\",6378137,298.257223563]],PRIMEM[\"Greenwich\",0],UNIT[\"Degree\",0.017453292519943295]],PROJECTION[\"Transverse_Mercator\"],PARAMETER[\"latitude_of_origin\",0],PARAMETER[\"central_meridian\",17],PARAMETER[\"scale_factor\",1],PARAMETER[\"false_easting\",0],PARAMETER[\"false_northing\",0],UNIT[\"Meter\",1]]"
  else if projection_name = "lo19" then
    "PROJCS[\"Lo19\",GEOGCS[\"Hartebeesthoek94\",DATUM[\"D_Hartebeesthoek_1994\",SPHEROID[\"WGS_1984\",6378137,298.257223563]],PRIMEM[\"Greenwich\",0],UNIT[\"Degree\",0.017453292519943295]],PROJECTION[\"Transverse_Mercator\"],PARAMETER[\"latitude_of_origin\",0],PARAMETER[\"central_meridian\",19],PARAMETER[\"scale_factor\",1],PARAMETER[\"false_easting\",0],PARAMETER[\"false_northing\",0],UNIT[\"Meter\",1]]"
  else if projection_name = "lo21" then
    "PROJCS[\"Lo21\",GEOGCS[\"Hartebeesthoek94\",DATUM[\"D_Hartebeesthoek_1994\",SPHEROID[\"WGS_1984\",6378137,298.257223563]],PRIMEM[\"Greenwich\",0],UNIT[\"Degree\",0.017453292519943295]],PROJECTION[\"Transverse_Mercator\"],PARAMETER[\"latitude_of_origin\",0],PARAMETER[\"central_meridian\",21],PARAMETER[\"scale_factor\",1],PARAMETER[\"false_easting\",0],PARAMETER[\"false_northing\",0],UNIT[\"Meter\",1]]"
  else if projection_name = "lo23" then
    "PROJCS[\"Lo23\",GEOGCS[\"Hartebeesthoek94\",DATUM[\"D_Hartebeesthoek_1994\",SPHEROID[\"WGS_1984\",6378137,298.257223563]],PRIMEM[\"Greenwich\",0],UNIT[\"Degree\",0.017453292519943295]],PROJECTION[\"Transverse_Mercator\"],PARAMETER[\"latitude_of_origin\",0],PARAMETER[\"central_meridian\",23],PARAMETER[\"scale_factor\",1],PARAMETER[\"false_easting\",0],PARAMETER[\"false_northing\",0],UNIT[\"Meter\",1]]"
  else if projection_name = "lo25" then
    "PROJCS[\"Lo25\",GEOGCS[\"Hartebeesthoek94\",DATUM[\"D_Hartebeesthoek_1994\",SPHEROID[\"WGS_1984\",6378137,298.257223563]],PRIMEM[\"Greenwich\",0],UNIT[\"Degree\",0.017453292519943295]],PROJECTION[\"Transverse_Mercator\"],PARAMETER[\"latitude_of_origin\",0],PARAMETER[\"central_meridian\",25],PARAMETER[\"scale_factor\",1],PARAMETER[\"false_easting\",0],PARAMETER[\"false_northing\",0],UNIT[\"Meter\",1]]"
  else if projection_name = "lo27" then
    "PROJCS[\"Lo27\",GEOGCS[\"Hartebeesthoek94\",DATUM[\"D_Hartebeesthoek_1994\",SPHEROID[\"WGS_1984\",6378137,298.257223563]],PRIMEM[\"Greenwich\",0],UNIT[\"Degree\",0.017453292519943295]],PROJECTION[\"Transverse_Mercator\"],PARAMETER[\"latitude_of_origin\",0],PARAMETER[\"central_meridian\",27],PARAMETER[\"scale_factor\",1],PARAMETER[\"false_easting\",0],PARAMETER[\"false_northing\",0],UNIT[\"Meter\",1]]"
  else if projection_name = "lo29" then
    "PROJCS[\"Lo29\",GEOGCS[\"Hartebeesthoek94\",DATUM[\"D_Hartebeesthoek_1994\",SPHEROID[\"WGS_1984\",6378137,298.257223563]],PRIMEM[\"Greenwich\",0],UNIT[\"Degree\",0.017453292519943295]],PROJECTION[\"Transverse_Mercator\"],PARAMETER[\"latitude_of_origin\",0],PARAMETER[\"central_meridian\",29],PARAMETER[\"scale_factor\",1],PARAMETER[\"false_easting\",0],PARAMETER[\"false_northing\",0],UNIT[\"Meter\",1]]"
  else if projection_name = "lo31" then
    "PROJCS[\"Lo31\",GEOGCS[\"Hartebeesthoek94\",DATUM[\"D_Hartebeesthoek_1994\",SPHEROID[\"WGS_1984\",6378137,298.257223563]],PRIMEM[\"Greenwich\",0],UNIT[\"Degree\",0.017453292519943295]],PROJECTION[\"Transverse_Mercator\"],PARAMETER[\"latitude_of_origin\",0],PARAMETER[\"central_meridian\",31],PARAMETER[\"scale_factor\",1],PARAMETER[\"false_easting\",0],PARAMETER[\"false_northing\",0],UNIT[\"Meter\",1]]"
  else if projection_name = "lo33" then
    "PROJCS[\"Lo33\",GEOGCS[\"Hartebeesthoek94\",DATUM[\"D_Hartebeesthoek_1994\",SPHEROID[\"WGS_1984\",6378137,298.257223563]],PRIMEM[\"Greenwich\",0],UNIT[\"Degree\",0.017453292519943295]],PROJECTION[\"Transverse_Mercator\"],PARAMETER[\"latitude_of_origin\",0],PARAMETER[\"central_meridian\",33],PARAMETER[\"scale_factor\",1],PARAMETER[\"false_easting\",0],PARAMETER[\"false_northing\",0],UNIT[\"Meter\",1]]"
  else if projection_name = "utm33s" then
    "PROJCS[\"WGS_1984_UTM_Zone_33S\",GEOGCS[\"GCS_WGS_1984\",DATUM[\"D_WGS_1984\",SPHEROID[\"WGS_1984\",6378137.0,298.257223563]],PRIMEM[\"Greenwich\",0.0],UNIT[\"Degree\",0.0174532925199433]],PROJECTION[\"Transverse_Mercator\"],PARAMETER[\"False_Easting\",500000.0],PARAMETER[\"False_Northing\",10000000.0],PARAMETER[\"Central_Meridian\",15.0],PARAMETER[\"Scale_Factor\",0.9996],PARAMETER[\"Latitude_Of_Origin\",0.0],UNIT[\"Meter\",1.0],AUTHORITY[\"EPSG\",32733]]"
  else if projection_name = "utm34s" then
    "PROJCS[\"WGS_1984_UTM_Zone_34S\",GEOGCS[\"GCS_WGS_1984\",DATUM[\"D_WGS_1984\",SPHEROID[\"WGS_1984\",6378137.0,298.257223563]],PRIMEM[\"Greenwich\",0.0],UNIT[\"Degree\",0.0174532925199433]],PROJECTION[\"Transverse_Mercator\"],PARAMETER[\"False_Easting\",500000.0],PARAMETER[\"False_Northing\",10000000.0],PARAMETER[\"Central_Meridian\",21.0],PARAMETER[\"Scale_Factor\",0.9996],PARAMETER[\"Latitude_Of_Origin\",0.0],UNIT[\"Meter\",1.0],AUTHORITY[\"EPSG\",32734]]"
  else if projection_name = "utm35s" then
    "PROJCS[\"WGS_1984_UTM_Zone_35S\",GEOGCS[\"GCS_WGS_1984\",DATUM[\"D_WGS_1984\",SPHEROID[\"WGS_1984\",6378137.0,298.257223563]],PRIMEM[\"Greenwich\",0.0],UNIT[\"Degree\",0.0174532925199433]],PROJECTION[\"Transverse_Mercator\"],PARAMETER[\"False_Easting\",500000.0],PARAMETER[\"False_Northing\",10000000.0],PARAMETER[\"Central_Meridian\",27.0],PARAMETER[\"Scale_Factor\",0.9996],PARAMETER[\"Latitude_Of_Origin\",0.0],UNIT[\"Meter\",1.0],AUTHORITY[\"EPSG\",32735]]"
  else if projection_name = "utm36s" then
    "PROJCS[\"WGS_1984_UTM_Zone_36S\",GEOGCS[\"GCS_WGS_1984\",DATUM[\"D_WGS_1984\",SPHEROID[\"WGS_1984\",6378137.0,298.257223563]],PRIMEM[\"Greenwich\",0.0],UNIT[\"Degree\",0.0174532925199433]],PROJECTION[\"Transverse_Mercator\"],PARAMETER[\"False_Easting\",500000.0],PARAMETER[\"False_Northing\",10000000.0],PARAMETER[\"Central_Meridian\",33.0],PARAMETER[\"Scale_Factor\",0.9996],PARAMETER[\"Latitude_Of_Origin\",0.0],UNIT[\"Meter\",1.0],AUTHORITY[\"EPSG\",32736]]"
  else if projection_name = "albers_africa" then
    "PROJCS[\"Africa_Albers_Equal_Area_Conic\",GEOGCS[\"GCS_WGS_1984\",DATUM[\"D_WGS_1984\",SPHEROID[\"WGS_1984\",6378137.0,298.257223563]],PRIMEM[\"Greenwich\",0.0],UNIT[\"Degree\",0.0174532925199433]],PROJECTION[\"Albers\"],PARAMETER[\"False_Easting\",0.0],PARAMETER[\"False_Northing\",0.0],PARAMETER[\"Central_Meridian\",25.0],PARAMETER[\"Standard_Parallel_1\",20.0],PARAMETER[\"Standard_Parallel_2\",-23.0],PARAMETER[\"Latitude_Of_Origin\",0.0],UNIT[\"Meter\",1.0]]"
  else if projection_name = "albers_south_africa" then
    "PROJCS[\"South_Africa_Albers_Equal_Area_Conic\",GEOGCS[\"GCS_Hartebeesthoek_1994\",DATUM[\"D_Hartebeesthoek_1994\",SPHEROID[\"WGS_1984\",6378137.0,298.257223563]],PRIMEM[\"Greenwich\",0.0],UNIT[\"Degree\",0.0174532925199433]],PROJECTION[\"Albers\"],PARAMETER[\"False_Easting\",0.0],PARAMETER[\"False_Northing\",0.0],PARAMETER[\"Central_Meridian\",25.0],PARAMETER[\"Standard_Parallel_1\",-33.5],PARAMETER[\"Standard_Parallel_2\",-34.5],PARAMETER[\"Latitude_Of_Origin\",0.0],UNIT[\"Meter\",1.0]]"
  else if projection_name = "web" then "EPSG:3857"
  else "ERROR: Projection not found: " ++ projection_name

/-! ## Sentinel-2 metadata parser -/

/-- The per-line product-identifier step of the parser: a line carrying
the `<PRODUCT_URI>` tag is stripped, its tag text removed, and the
remaining token is split on underscores; segment 0 is the sensor, the
first 8 characters of segment 2 the date, segment 5 without its leading
character the tile.  Accessing segment 2 or 5 of a token with fewer
segments raises `IndexError` in the source. -/
def s2_line_product (line : String) (acc : String × String × String) :
    Except String (String × String × String) :=
  if pyIn "<PRODUCT_URI>" line then
    let product_info :=
      pyReplace (pyReplace (remove_unwanted_txt line) "<PRODUCT_URI>" "")
        ".SAFE</PRODUCT_URI>" ""
    let list_split_line := pySplit product_info "_"
    if list_split_line.length < 6 then
      Except.error "IndexError: list index out of range"
    else
      Except.ok (list_split_line.getD 0 "",
                 pyTake 8 (list_split_line.getD 2 ""),
                 pyDrop 1 (list_split_line.getD 5 ""))
  else Except.ok acc

/-- The per-line image-file step of the parser: a line carrying the
`<IMAGE_FILE>` tag contributes one band path, the raw folder joined with
the tag text and the `.jp2` extension substituted. -/
def s2_line_image (raw_folder line : String) (list_rasters : List String) : List String :=
  if pyIn "<IMAGE_FILE>" line then
    list_rasters ++
      [raw_folder ++
        pyReplace (pyReplace (remove_unwanted_txt line) "<IMAGE_FILE>" "")
          "</IMAGE_FILE>" ".jp2"]
  else list_rasters

/-- The parser's sequential scan over the metadata lines; both tag tests
run on every line, as in the source. -/
def s2_process_lines (raw_folder : String) :
    List String → String × String × String → List String →
    Except String (String × String × String × List String)
  | [], (sensor, date, tile), list_rasters => Except.ok (sensor, date, tile, list_rasters)
  | file_line :: rest, acc, list_rasters =>
    match s2_line_product file_line acc with
    | Except.error e => Except.error e
    | Except.ok acc1 =>
      s2_process_lines raw_folder rest acc1 (s2_line_image raw_folder file_line list_rasters)

/-- `read_raster_sentinel2_metadata`: when the metadata document exists
its lines are scanned; when it does not, the source reaches the error
log call to the unbound `writeMessage` before the empty results would be
returned. -/
def read_raster_sentinel2_metadata (tfs : TextFS) (metadata raw_folder : String) :
    Except String (String × String × String × List String) :=
  match tfs metadata with
  | some list_lines => s2_process_lines raw_folder list_lines ("", "", "") []
  | none =>
    match writeMessageCall with
    | Except.error e => Except.error e
    | Except.ok _ => Except.ok ("", "", "", [])

/-! ## Sentinel-2 band classifier -/

/-- Level 2A, 10 m rule: the filename carries `10m` and one of the
10 m band codes. -/
def s2_l2a_cond10 (filename : String) : Bool :=
  pyIn "10m" filename &&
    (pyIn "B02" filename || pyIn "B03" filename || pyIn "B04" filename || pyIn "B08" filename)

/-- Level 2A, 20 m rule. -/
def s2_l2a_cond20 (filename : String) : Bool :=
  pyIn "20m" filename &&
    (pyIn "B05" filename || pyIn "B06" filename || pyIn "B07" filename ||
     pyIn "B8A" filename || pyIn "B11" filename || pyIn "B12" filename)

/-- Level 2A, 60 m rule (`WVP` stands for band 10). -/
def s2_l2a_cond60 (filename : String) : Bool :=
  pyIn "60m" filename &&
    (pyIn "B01" filename || pyIn "B09" filename || pyIn "WVP" filename)

/-- Level 1C, 10 m rule: band code alone. -/
def s2_l1c_cond10 (filename : String) : Bool :=
  pyIn "B02" filename || pyIn "B03" filename || pyIn "B04" filename || pyIn "B08" filename

/-- Level 1C, 20 m rule. -/
def s2_l1c_cond20 (filename : String) : Bool :=
  pyIn "B05" filename || pyIn "B06" filename || pyIn "B07" filename ||
    pyIn "B8A" filename || pyIn "B11" filename || pyIn "B12" filename

/-- Level 1C, 60 m rule; its `B11` alternative repeats a 20 m code. -/
def s2_l1c_cond60 (filename : String) : Bool :=
  pyIn "B01" filename || pyIn "B09" filename || pyIn "B11" filename

/-- The level 2A loop: each raster's basename is tested against the
three rules in elif order and the raster appended to the first matching
group (order preserved). -/
def s2_classify_l2a : List String → List String × List String × List String
  | [] => ([], [], [])
  | raster :: rest =>
    let t := s2_classify_l2a rest
    let filename := ntBasename raster
    if s2_l2a_cond10 filename then (raster :: t.1, t.2.1, t.2.2)
    else if s2_l2a_cond20 filename then (t.1, raster :: t.2.1, t.2.2)
    else if s2_l2a_cond60 filename then (t.1, t.2.1, raster :: t.2.2)
    else t

/-- The level 1C loop. -/
def s2_classify_l1c : List String → List String × List String × List String
  | [] => ([], [], [])
  | raster :: rest =>
    let t := s2_classify_l1c rest
    let filename := ntBasename raster
    if s2_l1c_cond10 filename then (raster :: t.1, t.2.1, t.2.2)
    else if s2_l1c_cond20 filename then (t.1, raster :: t.2.1, t.2.2)
    else if s2_l1c_cond60 filename then (t.1, t.2.1, raster :: t.2.2)
    else t

/-- `s2_get_raster_stack_bands`: dispatches on the processing level; an
unknown level reaches the error log call to the unbound `writeMessage`
before the three empty lists would be returned. -/
def s2_get_raster_stack_bands (list_rasters : List String) (s2_level : String) :
    Except String (List String × List String × List String) :=
  if s2_level = "L2A" then Except.ok (s2_classify_l2a list_rasters)
  else if s2_level = "L1C" then Except.ok (s2_classify_l1c list_rasters)
  else
    match writeMessageCall with
    | Except.error e => Except.error e
    | Except.ok _ => Except.ok ([], [], [])

/-! ## Metadata catalog writer -/

/-- The single-quote character, written by its code point. -/
def squote : String :=
  String.singleton (Char.ofNat 39)

/-- Python's `str` of a list of strings, as interpolated into the
catalog's error row (naive single-quote rendering; no claim input
contains a quote). -/
def pyStrList (l : List String) : String :=
  "[" ++ String.intercalate ", " (l.map (fun s => squote ++ s ++ squote)) ++ "]"

/-- The fixed csv header. -/
def catalog_columns : List String :=
  ["Raster", "Data", "Capture date", "Tile", "Bands", "Spatial resolution", "Projection"]

/-- The row written for one record: the seven fields in order when the
arity matches the header, otherwise a single error-message cell. -/
def catalog_row (file_info : List String) : List String :=
  if file_info.length = catalog_columns.length then file_info
  else ["ERROR: Not enough info provided for the raster: " ++ pyStrList file_info]

/-- `create_metadata`: rejects an empty record list (reaching the
unbound `writeMessage`), skips when the output exists and overwrite is
off, otherwise deletes any pre-existing output, logs, and writes the
header row followed by one row per record. -/
def create_metadata (overwrite : Bool) (cfs : CsvFS) (list_info : List (List String))
    (output_metadata : String) : CsvFS × Except String Unit :=
  if list_info.length > 0 then
    if (cfs output_metadata).isNone || overwrite then
      match delete_file cfs output_metadata with
      | (c1, Except.error e) => (c1, Except.error e)
      | (c1, Except.ok _) =>
        match writeMessageCall with
        | Except.error e => (c1, Except.error e)
        | Except.ok _ =>
          (cfsWrite c1 output_metadata (catalog_columns :: list_info.map catalog_row),
           Except.ok ())
    else (cfs, Except.ok ())
  else
    match writeMessageCall with
    | Except.error e => (cfs, Except.error e)
    | Except.ok _ => (cfs, Except.ok ())

/-! ## Concrete fixtures used by the evaluated theorems and witnesses -/

/-- A three-band input raster. -/
def sampleRaster : Raster :=
  { width := 4, height := 5, crs := "EPSG:32735", transform := "affine-in",
    dtype := "uint16", bands := [some 10, some 20, some 30] }

/-- A pre-existing single-band output raster. -/
def oldOutputRaster : Raster :=
  { width := 2, height := 2, crs := "EPSG:4326", transform := "affine-out",
    dtype := "uint8", bands := [some 7] }

/-- A filesystem holding only the input raster. -/
def fsInOnly : RasterFS :=
  fun p => if p = "in.tif" then some sampleRaster else none

/-- A filesystem holding the input raster and a pre-existing output. -/
def fsInOut : RasterFS :=
  fun p =>
    if p = "in.tif" then some sampleRaster
    else if p = "out.tif" then some oldOutputRaster
    else none

/-- The empty raster filesystem. -/
def fsNone : RasterFS :=
  fun _ => none

/-- The empty text filesystem. -/
def tfsNone : TextFS :=
  fun _ => none

/-- The empty csv filesystem. -/
def cfsNone : CsvFS :=
  fun _ => none

/-- A sample destination-transform computation standing for
`calculate_default_transform`. -/
def calcSample : Raster → String → String × Nat × Nat :=
  fun r epsg_code => (epsg_code ++ "|" ++ r.transform, r.width, r.height)

/-! ## Structural lemmas -/

/-- The logging call resolves against a namespace without
`writeMessage`, hence raises. -/
theorem writeMessageCall_eq : writeMessageCall = Except.error (nameErrorMsg "writeMessage") :=
  rfl

/-- `delete_raster` either raises (the raster exists, so it logs first)
or does nothing (the raster is absent); in both cases the filesystem is
untouched. -/
theorem delete_raster_spec (fs : RasterFS) (p : String) :
    delete_raster fs p =
      (fs, if (fs p).isSome then Except.error (nameErrorMsg "writeMessage") else Except.ok ()) := by
  by_cases h : (fs p).isSome
  · simp [delete_raster, h, writeMessageCall_eq]
  · simp [delete_raster, h]

/-- `delete_file` likewise never modifies the filesystem. -/
theorem delete_file_spec (fs : CsvFS) (p : String) :
    delete_file fs p =
      (fs, if (fs p).isSome then Except.error (nameErrorMsg "writeMessage") else Except.ok ()) := by
  by_cases h : (fs p).isSome
  · simp [delete_file, h, writeMessageCall_eq]
  · simp [delete_file, h]

/-- `stack_rasters` never modifies the filesystem: every path to a write
first runs a logging call that raises. -/
theorem stack_rasters_fst (ov : Bool) (fs : RasterFS) (list_bands : List String)
    (output : String) : (stack_rasters ov fs list_bands output).1 = fs := by
  by_cases hmiss : list_bands.any (fun band => (fs band).isNone)
  · simp [stack_rasters, hmiss, writeMessageCall_eq]
  · by_cases hg : ((fs output).isNone || ov) = true
    · by_cases hout : (fs output).isSome
      · simp [stack_rasters, hmiss, hg, delete_raster_spec, hout]
      · simp [stack_rasters, hmiss, hg, delete_raster_spec, hout, writeMessageCall_eq]
    · simp [stack_rasters, hmiss, hg]

/-- `restack_bands` never modifies the filesystem. -/
theorem restack_bands_fst (ov : Bool) (fs : RasterFS) (input output : String)
    (new_stack : List Int) : (restack_bands ov fs input output new_stack).1 = fs := by
  by_cases hin : (fs input).isSome
  · by_cases hg : ((fs output).isNone || ov) = true
    · by_cases hout : (fs output).isSome
      · simp [restack_bands, hin, hg, delete_raster_spec, hout]
      · by_cases hlen : new_stack.length > 0
        · simp [restack_bands, hin, hg, delete_raster_spec, hout, hlen, writeMessageCall_eq]
        · simp [restack_bands, hin, hg, delete_raster_spec, hout, hlen, writeMessageCall_eq]
    · simp [restack_bands, hin, hg]
  · simp [restack_bands, hin, writeMessageCall_eq]

/-- `project_raster` never modifies the filesystem. -/
theorem project_raster_fst (ov : Bool) (reproj : Nat → Nat)
    (calcTransform : Raster → String → String × Nat × Nat) (fs : RasterFS)
    (input output resampling_str epsg_code : String) :
    (project_raster ov reproj calcTransform fs input output resampling_str epsg_code).1 = fs := by
  by_cases hin : (fs input).isSome
  · by_cases hg : ((fs output).isNone || ov) = true
    · cases hr : get_resampling (pyLower resampling_str) with
      | error e => simp [project_raster, hin, hg, hr]
      | ok r => simp [project_raster, hin, hg, hr, writeMessageCall_eq]
    · simp [project_raster, hin, hg]
  · simp [project_raster, hin, writeMessageCall_eq]

/-- `copy_raster` never modifies the filesystem. -/
theorem copy_raster_fst (fs : RasterFS) (input output : String) (ov : Bool) :
    (copy_raster fs input output ov).1 = fs := by
  by_cases hg : ((fs output).isNone || ov) = true
  · by_cases hout : (fs output).isSome
    · simp [copy_raster, hg, delete_raster_spec, hout]
    · simp [copy_raster, hg, delete_raster_spec, hout, writeMessageCall_eq]
  · simp [copy_raster, hg]

/-- The level 2A loop computes the three elif-ordered filters of the
input list. -/
theorem s2_classify_l2a_eq (l : List String) :
    s2_classify_l2a l =
      (l.filter (fun r => s2_l2a_cond10 (ntBasename r)),
       l.filter (fun r => !s2_l2a_cond10 (ntBasename r) && s2_l2a_cond20 (ntBasename r)),
       l.filter (fun r => !s2_l2a_cond10 (ntBasename r) && !s2_l2a_cond20 (ntBasename r) &&
         s2_l2a_cond60 (ntBasename r))) := by
  induction l with
  | nil => rfl
  | cons r rest ih =>
    by_cases h1 : s2_l2a_cond10 (ntBasename r)
    · simp [s2_classify_l2a, ih, List.filter_cons, h1]
    · by_cases h2 : s2_l2a_cond20 (ntBasename r)
      · simp [s2_classify_l2a, ih, List.filter_cons, h1, h2]
      · by_cases h3 : s2_l2a_cond60 (ntBasename r)
        · simp [s2_classify_l2a, ih, List.filter_cons, h1, h2, h3]
        · simp [s2_classify_l2a, ih, List.filter_cons, h1, h2, h3]

/-- The level 1C loop computes the three elif-ordered filters of the
input list. -/
theorem s2_classify_l1c_eq (l : List String) :
    s2_classify_l1c l =
      (l.filter (fun r => s2_l1c_cond10 (ntBasename r)),
       l.filter (fun r => !s2_l1c_cond10 (ntBasename r) && s2_l1c_cond20 (ntBasename r)),
       l.filter (fun r => !s2_l1c_cond10 (ntBasename r) && !s2_l1c_cond20 (ntBasename r) &&
         s2_l1c_cond60 (ntBasename r))) := by
  induction l with
  | nil => rfl
  | cons r rest ih =>
    by_cases h1 : s2_l1c_cond10 (ntBasename r)
    · simp [s2_classify_l1c, ih, List.filter_cons, h1]
    · by_cases h2 : s2_l1c_cond20 (ntBasename r)
      · simp [s2_classify_l1c, ih, List.filter_cons, h1, h2]
      · by_cases h3 : s2_l1c_cond60 (ntBasename r)
        · simp [s2_classify_l1c, ih, List.filter_cons, h1, h2, h3]
        · simp [s2_classify_l1c, ih, List.filter_cons, h1, h2, h3]

/-! ## Claims -/

/-- Claim C1.  The claim states that for an existing input raster with n
bands and an absent output path, `project_raster` resamples and writes
all n bands.  In the code as written the call raises `NameError` at its
first logging statement (the unbound `writeMessage`) before any output
is created; and independently, the band loop `range(1, band_count)`
visits only bands 1..n-1, so the last band would stay unwritten even
with the logging fixed.  Evaluated here on a three-band raster with an
absent output. -/
theorem claim1_project_raster_writes_no_band :
    project_raster false Nat.succ calcSample fsInOnly "in.tif" "out.tif" "nearest" "EPSG:4326"
      = (fsInOnly, Except.error (nameErrorMsg "writeMessage")) ∧
    project_raster_band_indices sampleRaster.bands.length = [1, 2] ∧
    sampleRaster.bands.length ∉ project_raster_band_indices sampleRaster.bands.length := by
  refine ⟨rfl, rfl, ?_⟩
  decide

/-- Claim C3.  The claim states that every error condition is logged and
the function returns early, with no exception propagated.  The module
binds its printing helper as `write_message`, but every error-path call
site invokes the unbound global `writeMessage`, so those paths raise
`NameError` instead: evaluated on `stack_rasters` with a missing band
file and on `read_raster_sentinel2_metadata` with a missing metadata
document. -/
theorem claim3_error_paths_raise_name_error :
    callGlobal "write_message" = Except.ok () ∧
    callGlobal "writeMessage" = Except.error (nameErrorMsg "writeMessage") ∧
    stack_rasters false fsNone ["missing.tif"] "stack.tif"
      = (fsNone, Except.error (nameErrorMsg "writeMessage")) ∧
    read_raster_sentinel2_metadata tfsNone "MTD_MSIL2A.xml" "raw/"
      = Except.error (nameErrorMsg "writeMessage") :=
  ⟨rfl, rfl, rfl, rfl⟩

/-- Claim C4.  The claim states that every documented coordinate-system
name, including the UTM names spelled `utm_33s` .. `utm_36s`, resolves
to its documented value and never to the not-found error string.  The
table's UTM branches actually match `utm33s` .. `utm36s` (no
underscore), so each documented UTM spelling falls through to the error
string, while the remaining documented names resolve as stated. -/
theorem claim4_documented_utm_names_not_found :
    get_epsg_projection_code "utm_33s" = "ERROR: Projection not found: utm_33s" ∧
    get_epsg_projection_code "utm_34s" = "ERROR: Projection not found: utm_34s" ∧
    get_epsg_projection_code "utm_35s" = "ERROR: Projection not found: utm_35s" ∧
    get_epsg_projection_code "utm_36s" = "ERROR: Projection not found: utm_36s" ∧
    get_epsg_projection_code "wgs84" = "EPSG:4326" ∧
    get_epsg_projection_code "hartebeesthoek" = "EPSG:4148" ∧
    get_epsg_projection_code "web" = "EPSG:3857" ∧
    get_epsg_projection_code "utm33s"
      = "PROJCS[\"WGS_1984_UTM_Zone_33S\",GEOGCS[\"GCS_WGS_1984\",DATUM[\"D_WGS_1984\",SPHEROID[\"WGS_1984\",6378137.0,298.257223563]],PRIMEM[\"Greenwich\",0.0],UNIT[\"Degree\",0.0174532925199433]],PROJECTION[\"Transverse_Mercator\"],PARAMETER[\"False_Easting\",500000.0],PARAMETER[\"False_Northing\",10000000.0],PARAMETER[\"Central_Meridian\",15.0],PARAMETER[\"Scale_Factor\",0.9996],PARAMETER[\"Latitude_Of_Origin\",0.0],UNIT[\"Meter\",1.0],AUTHORITY[\"EPSG\",32733]]" :=
  ⟨rfl, rfl, rfl, rfl, rfl, rfl, rfl, rfl⟩

/-- Claim C5.  The claim states that on a missing metadata document the
parser logs an error and returns empty results without raising, and
that the classifier on an empty band list returns three empty groups
for level L2A or L1C.  The classifier half holds, but the parser's
missing-document path calls the unbound `writeMessage` and raises
`NameError` instead of returning. -/
theorem claim5_missing_metadata_raises :
    read_raster_sentinel2_metadata tfsNone "missing_metadata.xml" "raw/"
      = Except.error (nameErrorMsg "writeMessage") ∧
    s2_get_raster_stack_bands [] "L2A" = Except.ok ([], [], []) ∧
    s2_get_raster_stack_bands [] "L1C" = Except.ok ([], [], []) :=
  ⟨rfl, rfl, rfl⟩

/-- Claim C6.  The claim states that any unrecognized resampling-method
string is logged as a warning and nearest-neighbour is returned, so
execution continues.  The three known names do resolve, but the
fallback branch calls the unbound `writeMessage` first, so an
unrecognized string (here `"foo"`, and the uppercase `"NEAREST"`)
raises `NameError` before the default could be returned. -/
theorem claim6_unknown_resampling_raises :
    get_resampling "nearest" = Except.ok ResamplingMethod.nearest ∧
    get_resampling "bilinear" = Except.ok ResamplingMethod.bilinear ∧
    get_resampling "cubic" = Except.ok ResamplingMethod.cubic ∧
    get_resampling "foo" = Except.error (nameErrorMsg "writeMessage") ∧
    get_resampling "NEAREST" = Except.error (nameErrorMsg "writeMessage") :=
  ⟨rfl, rfl, rfl, rfl, rfl⟩

/-- Claim C7.  The claim states that a non-empty record list with an
absent (or overwritable) output produces a header row plus one row per
record.  The writer's logging statement precedes the csv open and calls
the unbound `writeMessage`, so the call raises `NameError` and writes
nothing: evaluated on one well-formed seven-field record and an absent
output path. -/
theorem claim7_create_metadata_writes_nothing :
    create_metadata false cfsNone
      [["a.tif", "S2A", "20200101", "35JLK", "[1, 2, 3]", "10", "EPSG:4326"]]
      "metadata.csv"
      = (cfsNone, Except.error (nameErrorMsg "writeMessage")) :=
  rfl

/-- Claim C2.  For an existing input raster and a restack list holding
an index that is non-positive or exceeds the input's band count,
`restack_bands` aborts with no output file created or modified, and a
pre-existing output file is left unchanged regardless of the overwrite
setting.  This holds — in the code as written every state-changing step
of `restack_bands` (including the `os.remove` inside `delete_raster`)
is preceded by a call to the unbound `writeMessage`, so the call raises
or skips before touching any file and the filesystem is returned
unchanged. -/
theorem claim2_restack_invalid_index_leaves_filesystem_unchanged
    (overwrite : Bool) (fs : RasterFS) (input output : String)
    (new_stack : List Int) (r : Raster) (b : Int)
    (hin : fs input = some r) (hb : b ∈ new_stack)
    (hbad : b ≤ 0 ∨ b > (r.bands.length : Int)) :
    (restack_bands overwrite fs input output new_stack).1 = fs :=
  restack_bands_fst overwrite fs input output new_stack

/-- Witness for claim C2: a three-band input, a pre-existing output,
overwrite enabled and the out-of-range index 5. -/
theorem claim2_witness :
    (restack_bands true fsInOut "in.tif" "out.tif" [5]).1 = fsInOut :=
  claim2_restack_invalid_index_leaves_filesystem_unchanged true fsInOut "in.tif" "out.tif"
    [5] sampleRaster 5 rfl (by decide) (by right; decide)

/-- Claim C8.  For `stack_rasters`, `restack_bands`, `project_raster`
and `copy_raster`: whenever the output path already exists and the
overwrite flag is false, the call leaves the output (indeed the whole
filesystem) unchanged. -/
theorem claim8_existing_output_no_overwrite_is_noop
    (overwrite : Bool) (fs : RasterFS) (list_bands : List String)
    (input output : String) (new_stack : List Int)
    (resampling_str epsg_code : String) (reproj : Nat → Nat)
    (calcTransform : Raster → String → String × Nat × Nat)
    (hov : overwrite = false) (hout : (fs output).isSome) :
    (stack_rasters overwrite fs list_bands output).1 = fs ∧
    (restack_bands overwrite fs input output new_stack).1 = fs ∧
    (project_raster overwrite reproj calcTransform fs input output resampling_str epsg_code).1 = fs ∧
    (copy_raster fs input output overwrite).1 = fs :=
  ⟨stack_rasters_fst overwrite fs list_bands output,
   restack_bands_fst overwrite fs input output new_stack,
   project_raster_fst overwrite reproj calcTransform fs input output resampling_str epsg_code,
   copy_raster_fst fs input output overwrite⟩

/-- Witness for claim C8: a pre-existing output file and overwrite off,
for all four operations at once. -/
theorem claim8_witness :
    (stack_rasters false fsInOut ["in.tif"] "out.tif").1 = fsInOut ∧
    (restack_bands false fsInOut "in.tif" "out.tif" [1]).1 = fsInOut ∧
    (project_raster false Nat.succ calcSample fsInOut "in.tif" "out.tif" "nearest"
      "EPSG:4326").1 = fsInOut ∧
    (copy_raster fsInOut "in.tif" "out.tif" false).1 = fsInOut :=
  claim8_existing_output_no_overwrite_is_noop false fsInOut ["in.tif"] "in.tif" "out.tif"
    [1] "nearest" "EPSG:4326" Nat.succ calcSample rfl rfl

/-- Claim C9 counterexample.  The claim quantifies over paths: a path
containing `10m` and `B02` lands in the 10 m group, a path containing
`20m` and `B05` lands in the 20 m group.  The loop tests the basename
only, and the elif order gives the 10 m rule priority: here the first
path carries `10m`/`B02` in its directory part and lands in no group,
and the second carries `20m`/`B05` (and also `10m`/`B02`) in its
basename and lands in the 10 m group instead of the 20 m group. -/
theorem claim9_counterexample :
    pyIn "10m" "B02_10m/T35.jp2" = true ∧
    pyIn "B02" "B02_10m/T35.jp2" = true ∧
    pyIn "20m" "B02_B05_10m_20m.jp2" = true ∧
    pyIn "B05" "B02_B05_10m_20m.jp2" = true ∧
    s2_get_raster_stack_bands ["B02_10m/T35.jp2", "B02_B05_10m_20m.jp2"] "L2A"
      = Except.ok (["B02_B05_10m_20m.jp2"], [], []) :=
  ⟨rfl, rfl, rfl, rfl, rfl⟩

/-- Claim C9, amended.  For level L2A, with classification driven by the
path's basename and by the elif priority of the rules: a path whose
basename contains `10m` and `B02` is placed in the 10 m group and in no
other; a path whose basename contains `20m` and `B05` and does not
match the higher-priority 10 m rule is placed in the 20 m group and in
no other; a path whose basename matches none of the three rules is
placed in no group. -/
theorem claim9_amended_basename_classification
    (l : List String) (t : List String × List String × List String)
    (ht : s2_get_raster_stack_bands l "L2A" = Except.ok t) :
    (∀ p ∈ l, pyIn "10m" (ntBasename p) = true → pyIn "B02" (ntBasename p) = true →
      p ∈ t.1 ∧ p ∉ t.2.1 ∧ p ∉ t.2.2) ∧
    (∀ p ∈ l, pyIn "20m" (ntBasename p) = true → pyIn "B05" (ntBasename p) = true →
      s2_l2a_cond10 (ntBasename p) = false → p ∈ t.2.1 ∧ p ∉ t.1 ∧ p ∉ t.2.2) ∧
    (∀ p ∈ l, s2_l2a_cond10 (ntBasename p) = false → s2_l2a_cond20 (ntBasename p) = false →
      s2_l2a_cond60 (ntBasename p) = false → p ∉ t.1 ∧ p ∉ t.2.1 ∧ p ∉ t.2.2) := by
  have hteq : t = s2_classify_l2a l := by
    simp [s2_get_raster_stack_bands] at ht
    exact ht.symm
  subst hteq
  rw [s2_classify_l2a_eq]
  refine ⟨?_, ?_, ?_⟩
  · intro p hp h10 hB02
    have hc10 : s2_l2a_cond10 (ntBasename p) = true := by
      simp [s2_l2a_cond10, h10, hB02]
    refine ⟨List.mem_filter.mpr ⟨hp, hc10⟩, ?_, ?_⟩
    · intro hmem
      have hcond := (List.mem_filter.mp hmem).2
      simp [hc10] at hcond
    · intro hmem
      have hcond := (List.mem_filter.mp hmem).2
      simp [hc10] at hcond
  · intro p hp h20 hB05 hnot10
    have hc20 : s2_l2a_cond20 (ntBasename p) = true := by
      simp [s2_l2a_cond20, h20, hB05]
    refine ⟨List.mem_filter.mpr ⟨hp, by simp [hnot10, hc20]⟩, ?_, ?_⟩
    · intro hmem
      have hcond := (List.mem_filter.mp hmem).2
      simp [hnot10] at hcond
    · intro hmem
      have hcond := (List.mem_filter.mp hmem).2
      simp [hc20] at hcond
  · intro p hp hn10 hn20 hn60
    refine ⟨?_, ?_, ?_⟩
    · intro hmem
      have hcond := (List.mem_filter.mp hmem).2
      simp [hn10] at hcond
    · intro hmem
      have hcond := (List.mem_filter.mp hmem).2
      simp [hn20] at hcond
    · intro hmem
      have hcond := (List.mem_filter.mp hmem).2
      simp [hn60] at hcond

/-- Witness for claim C9 (amended): a basename carrying `10m` and `B02`
lands in the 10 m group. -/
theorem claim9_witness :
    "T35_B02_10m.jp2" ∈ (s2_classify_l2a ["T35_B02_10m.jp2"]).1 :=
  ((claim9_amended_basename_classification ["T35_B02_10m.jp2"]
      (s2_classify_l2a ["T35_B02_10m.jp2"]) rfl).1
    "T35_B02_10m.jp2" (by simp) rfl rfl).1

/-- Claim C10.  For level L1C, every path whose filename contains `B11`
but none of `B02`, `B03`, `B04`, `B08` is placed in the 20 m group (and
in no other); and the `B11` alternative of the 60 m condition is
unreachable: every path in the 60 m group has a basename free of `B11`,
because the 20 m condition, tested first, already matches any `B11`
filename that reaches it. -/
theorem claim10_l1c_b11_lands_in_20m
    (l : List String) (t : List String × List String × List String) (p : String)
    (ht : s2_get_raster_stack_bands l "L1C" = Except.ok t)
    (hp : p ∈ l)
    (h11 : pyIn "B11" (ntBasename p) = true)
    (h02 : pyIn "B02" (ntBasename p) = false)
    (h03 : pyIn "B03" (ntBasename p) = false)
    (h04 : pyIn "B04" (ntBasename p) = false)
    (h08 : pyIn "B08" (ntBasename p) = false) :
    (p ∈ t.2.1 ∧ p ∉ t.1 ∧ p ∉ t.2.2) ∧
    (∀ q ∈ t.2.2, pyIn "B11" (ntBasename q) = false) := by
  have hteq : t = s2_classify_l1c l := by
    simp [s2_get_raster_stack_bands] at ht
    exact ht.symm
  subst hteq
  rw [s2_classify_l1c_eq]
  have hc10 : s2_l1c_cond10 (ntBasename p) = false := by
    simp [s2_l1c_cond10, h02, h03, h04, h08]
  have hc20 : s2_l1c_cond20 (ntBasename p) = true := by
    simp [s2_l1c_cond20, h11]
  refine ⟨⟨List.mem_filter.mpr ⟨hp, by simp [hc10, hc20]⟩, ?_, ?_⟩, ?_⟩
  · intro hmem
    have hcond := (List.mem_filter.mp hmem).2
    simp [hc10] at hcond
  · intro hmem
    have hcond := (List.mem_filter.mp hmem).2
    simp [hc20] at hcond
  · intro q hq
    have hcond := (List.mem_filter.mp hq).2
    simp only [Bool.and_eq_true, Bool.not_eq_true'] at hcond
    have hq20 := hcond.1.2
    simp only [s2_l1c_cond20, Bool.or_eq_false_iff] at hq20
    exact hq20.1.2

/-- Witness for claim C10: a basename carrying `B11` and no 10 m band
code lands in the 20 m group. -/
theorem claim10_witness :
    "T35_B11.jp2" ∈ (s2_classify_l1c ["T35_B11.jp2"]).2.1 :=
  ((claim10_l1c_b11_lands_in_20m ["T35_B11.jp2"] (s2_classify_l1c ["T35_B11.jp2"])
      "T35_B11.jp2" rfl (by simp) rfl rfl rfl rfl rfl).1).1
